import Mathlib

/-!
# Verification of the inventory optimization engine

Shallow embedding of `src/ml_models/inventory_optimization.py`
(`class InventoryOptimizer`) and proofs about it.

Modelling conventions:

* Python floats are modelled by real numbers (`ℝ`).  All inputs exercised by
  the specification are tiny, so float overflow is not modelled.
* A computation step that produces a **non-finite** float (an IEEE infinity or
  NaN — a division by zero, `np.sqrt` of a negative number, `norm.ppf` at or
  outside the boundary of (0,1)) is modelled as `none : Option ℝ`, and `none`
  propagates through subsequent arithmetic (in IEEE arithmetic a non-finite
  operand yields a non-finite result in every case the claims exercise).
  `none` means "the source produced a non-finite number"; the source raises
  **no** exception in these cases.
* `scipy.stats.norm.ppf`, the standard-normal quantile Φ⁻¹, is an external
  library routine; the embedding takes it as an explicit function parameter
  `ppf : ℝ → ℝ` giving its value strictly inside (0,1), and theorems that
  depend on its analytic behaviour hypothesise its documented properties
  (monotonicity, Φ⁻¹(0.95) ≈ 1.6449).  At 0 and 1 the library returns -inf
  and +inf, modelled as `none` by `ppfChecked`.
-/

noncomputable section

/-- Division of finite floats: non-finite (±inf when `x ≠ 0`, NaN when
`x = 0`) exactly when the divisor is zero; modelled as `none` then. -/
def floatDiv (x y : ℝ) : Option ℝ :=
  if y = 0 then none else some (x / y)

/-- Model of `np.sqrt` on a finite float: NaN (modelled `none`) on negative input,
otherwise the real square root. -/
def floatSqrt (x : ℝ) : Option ℝ :=
  if x < 0 then none else some (Real.sqrt x)

/-- Model of `scipy.stats.norm.ppf`: finite (given by the parameter `ppf`) strictly
inside (0,1); -inf at 0, +inf at 1, NaN outside [0,1] — all modelled `none`. -/
def ppfChecked (ppf : ℝ → ℝ) (p : ℝ) : Option ℝ :=
  if 0 < p ∧ p < 1 then some (ppf p) else none

/-- The three policy scalars set in `InventoryOptimizer.__init__` and never
reassigned afterwards (source lines 30-32). -/
structure InventoryOptimizer where
  holding_cost_rate : ℝ
  stockout_cost_rate : ℝ
  service_level : ℝ

/-- The `__init__` defaults: `holding_cost_rate=0.25`, `stockout_cost_rate=0.5`,
`service_level=0.95`. -/
def defaultOptimizer : InventoryOptimizer := ⟨0.25, 0.5, 0.95⟩

/-- One input row of the batch: the seven required columns of the
`optimize_inventory_levels` input table.  `sku_id` is an opaque identifier. -/
structure Item where
  sku_id : ℕ
  demand_mean : ℝ
  demand_std : ℝ
  lead_time_mean : ℝ
  lead_time_std : ℝ
  unit_cost : ℝ
  ordering_cost : ℝ

/-- One output row: the input row (carried over unchanged by
`result = data.copy()`) plus the nine derived columns.  Derived fields that
can be non-finite floats are `Option ℝ`. -/
structure OptimizedItem where
  item : Item
  lead_time_demand : ℝ
  lead_time_demand_std : ℝ
  eoq : Option ℝ
  reorder_point : Option ℝ
  safety_stock : Option ℝ
  optimal_inventory : Option ℝ
  annual_holding_cost : Option ℝ
  annual_ordering_cost : Option ℝ
  total_annual_cost : Option ℝ

/-- Source method `InventoryOptimizer.calculate_economic_order_quantity` (source line 52):
`np.sqrt((2 * demand * ordering_cost) / (self.holding_cost_rate * unit_cost))`.
The division is non-finite when `holding_cost_rate * unit_cost = 0`. -/
def calculate_economic_order_quantity (opt : InventoryOptimizer)
    (demand ordering_cost unit_cost : ℝ) : Option ℝ :=
  (floatDiv (2 * demand * ordering_cost)
    (opt.holding_cost_rate * unit_cost)).bind floatSqrt

/-- Source method `InventoryOptimizer.calculate_reorder_point` (source lines 54-85).  The
Python parameter `service_level=None` is the `Option ℝ` argument: `none` means
the caller omitted it and the instance's configured `self.service_level` is
used.  `z = norm.ppf(service_level)`; result `lead_time_demand + z * lead_time_std`. -/
def calculate_reorder_point (ppf : ℝ → ℝ) (opt : InventoryOptimizer)
    (lead_time_demand lead_time_std : ℝ) (service_level : Option ℝ) : Option ℝ :=
  let sl := service_level.getD opt.service_level
  (ppfChecked ppf sl).map (fun z => lead_time_demand + z * lead_time_std)

/-- The per-row computation of `optimize_inventory_levels` (source lines
111-151), exactly in source order:
lead_time_demand, lead_time_demand_std, eoq, reorder_point (with the
configured service level), safety_stock = reorder_point - lead_time_demand,
optimal_inventory = eoq + safety_stock,
annual_holding_cost = optimal_inventory * unit_cost * holding_cost_rate,
annual_ordering_cost = demand_mean / eoq * ordering_cost (unguarded division),
total_annual_cost = annual_holding_cost + annual_ordering_cost. -/
def optimizeItem (ppf : ℝ → ℝ) (opt : InventoryOptimizer) (it : Item) :
    OptimizedItem :=
  let ltd := it.demand_mean * it.lead_time_mean
  let ltds := Real.sqrt (it.demand_mean ^ 2 * it.lead_time_std ^ 2 +
    it.lead_time_mean ^ 2 * it.demand_std ^ 2)
  let eoq := calculate_economic_order_quantity opt it.demand_mean
    it.ordering_cost it.unit_cost
  let rp := calculate_reorder_point ppf opt ltd ltds none
  let ss := rp.map (fun r => r - ltd)
  let oi := eoq.bind (fun e => ss.map (fun s => e + s))
  let ahc := oi.map (fun o => o * it.unit_cost * opt.holding_cost_rate)
  let aoc := eoq.bind (fun e => (floatDiv it.demand_mean e).map
    (fun q => q * it.ordering_cost))
  let tac := ahc.bind (fun h => aoc.map (fun a => h + a))
  ⟨it, ltd, ltds, eoq, rp, ss, oi, ahc, aoc, tac⟩

/-- Source method `InventoryOptimizer.optimize_inventory_levels` (source lines 87-153):
copies the input table, derives the nine columns row-wise, returns the
enriched table.  The method body assigns only to the copy `result`, never to
`self` or to `data`; the embedding threads the optimizer state explicitly and
returns it so this frame property is statable. -/
def optimize_inventory_levels (ppf : ℝ → ℝ) (opt : InventoryOptimizer)
    (data : List Item) : List OptimizedItem × InventoryOptimizer :=
  (data.map (optimizeItem ppf opt), opt)

/-! ## Helper lemmas -/

/-- With a non-zero denominator the EOQ division is finite, and with a
non-negative quotient so is the square root. -/
lemma eoq_eq_some (opt : InventoryOptimizer) (d oc uc : ℝ)
    (hd : 0 ≤ d) (hoc : 0 ≤ oc)
    (hhcr : 0 < opt.holding_cost_rate) (huc : 0 < uc) :
    calculate_economic_order_quantity opt d oc uc =
      some (Real.sqrt ((2 * d * oc) / (opt.holding_cost_rate * uc))) := by
  have hden : 0 < opt.holding_cost_rate * uc := mul_pos hhcr huc
  have hnum : 0 ≤ 2 * d * oc := by positivity
  have hq : 0 ≤ (2 * d * oc) / (opt.holding_cost_rate * uc) :=
    div_nonneg hnum hden.le
  simp [calculate_economic_order_quantity, floatDiv, floatSqrt,
    hden.ne', not_lt.2 hq]

/-- With a service level strictly inside (0,1) the reorder point is finite and
equals `lead_time_demand + ppf(sl) * lead_time_std`. -/
lemma reorder_point_eq_some (ppf : ℝ → ℝ) (opt : InventoryOptimizer)
    (L S sl : ℝ) (h0 : 0 < sl) (h1 : sl < 1) :
    calculate_reorder_point ppf opt L S (some sl) =
      some (L + ppf sl * S) := by
  simp [calculate_reorder_point, ppfChecked, h0, h1]

/-- Same for the `None` branch: the configured service level is used. -/
lemma reorder_point_default_eq_some (ppf : ℝ → ℝ) (opt : InventoryOptimizer)
    (L S : ℝ) (h0 : 0 < opt.service_level) (h1 : opt.service_level < 1) :
    calculate_reorder_point ppf opt L S none =
      some (L + ppf opt.service_level * S) := by
  simp [calculate_reorder_point, ppfChecked, h0, h1]

/-- A fully valid row with rational derived values (demand 2, stds 0,
unit cost 16, ordering cost 4), used to instantiate theorems with
hypotheses at a concrete input. -/
def witnessItem : Item := ⟨0, 2, 0, 0, 0, 16, 4⟩

/-- A row with `demand_mean = 0` and the other Scenario E3 fields. -/
def zeroDemandItem : Item := ⟨2, 0, 200, 2, 0.5, 20, 50⟩

/-! ## Claims -/

/-- C3: For demand ≥ 0, ordering_cost ≥ 0, unit_cost > 0 and
holding_cost_rate > 0, `calculate_economic_order_quantity` equals
`sqrt((2 * demand * ordering_cost) / (holding_cost_rate * unit_cost))`, is
non-negative, is 0 at zero demand; and at the Scenario E1 input
(rate 0.25, demand 1000, ordering cost 50, unit cost 20) it equals
`sqrt 20000`, which lies strictly between 141.42 and 141.43. -/
theorem C3_eoq_formula (opt : InventoryOptimizer) (d oc uc : ℝ)
    (hd : 0 ≤ d) (hoc : 0 ≤ oc)
    (hhcr : 0 < opt.holding_cost_rate) (huc : 0 < uc) :
    calculate_economic_order_quantity opt d oc uc =
      some (Real.sqrt ((2 * d * oc) / (opt.holding_cost_rate * uc))) ∧
    0 ≤ (calculate_economic_order_quantity opt d oc uc).getD 0 ∧
    (d = 0 → calculate_economic_order_quantity opt d oc uc = some 0) ∧
    calculate_economic_order_quantity defaultOptimizer 1000 50 20 =
      some (Real.sqrt 20000) ∧
    (141.42 : ℝ) < Real.sqrt 20000 ∧ Real.sqrt 20000 < 141.43 := by
  have he := eoq_eq_some opt d oc uc hd hoc hhcr huc
  refine ⟨he, ?_, ?_, ?_, ?_, ?_⟩
  · rw [he]; simp
  · intro h0
    subst h0
    simpa using he
  · have h20 : (0.25 : ℝ) * 20 ≠ 0 := by norm_num
    have : (2 * (1000 : ℝ) * 50) / (0.25 * 20) = 20000 := by norm_num
    simp only [calculate_economic_order_quantity, defaultOptimizer, floatDiv,
      floatSqrt, h20, if_false, Option.bind_some, this]
    norm_num
  · rw [Real.lt_sqrt (by norm_num)]
    norm_num
  · rw [Real.sqrt_lt' (by norm_num)]
    norm_num

/-- Witness for C3 at a concrete input. -/
theorem C3_eoq_formula_witness :
    calculate_economic_order_quantity defaultOptimizer 1000 50 20 =
      some (Real.sqrt ((2 * 1000 * 50) / (0.25 * 20))) :=
  (C3_eoq_formula defaultOptimizer 1000 50 20 (by norm_num) (by norm_num)
    (by norm_num [defaultOptimizer]) (by norm_num)).1

/-- C4: For a service level strictly inside (0,1),
`calculate_reorder_point` returns
`lead_time_demand + ppf(serviceLevel) * lead_time_std`, using the explicit
`serviceLevel` argument when given and the instance's configured
`service_level` when the argument is omitted; and at Scenario E2
(serviceLevel 0.95, lead time demand 100, std 10), given the documented
library value Φ⁻¹(0.95) = 1.6449 ± 0.0001, the result is within 0.001 of
116.449. -/
theorem C4_reorder_point_formula (ppf : ℝ → ℝ) (opt : InventoryOptimizer)
    (L S sl : ℝ) (h0 : 0 < sl) (h1 : sl < 1) :
    calculate_reorder_point ppf opt L S (some sl) = some (L + ppf sl * S) ∧
    (0 < opt.service_level → opt.service_level < 1 →
      calculate_reorder_point ppf opt L S none =
        some (L + ppf opt.service_level * S)) ∧
    (|ppf 0.95 - 1.6449| ≤ 0.0001 →
      |(calculate_reorder_point ppf defaultOptimizer 100 10
          (some 0.95)).getD 0 - 116.449| ≤ 0.001) := by
  refine ⟨reorder_point_eq_some ppf opt L S sl h0 h1,
    fun ha hb => reorder_point_default_eq_some ppf opt L S ha hb, ?_⟩
  intro hz
  rw [reorder_point_eq_some ppf defaultOptimizer 100 10 0.95 (by norm_num)
    (by norm_num)]
  simp only [Option.getD_some]
  have hrw : (100 : ℝ) + ppf 0.95 * 10 - 116.449 =
      (ppf 0.95 - 1.6449) * 10 := by ring
  rw [hrw, abs_mul]
  calc |ppf 0.95 - 1.6449| * |(10 : ℝ)| ≤ 0.0001 * 10 := by
        rw [abs_of_nonneg (by norm_num : (0:ℝ) ≤ 10)]
        exact mul_le_mul_of_nonneg_right hz (by norm_num)
    _ = 0.001 := by norm_num

/-- Witness for C4 at a concrete input, with a concrete quantile stub taking
the documented value at 0.95. -/
theorem C4_reorder_point_formula_witness :
    calculate_reorder_point (fun _ => 1.6449) defaultOptimizer 100 10
      (some 0.95) = some (100 + 1.6449 * 10) ∧
    |(calculate_reorder_point (fun _ => 1.6449) defaultOptimizer 100 10
        (some 0.95)).getD 0 - 116.449| ≤ 0.001 := by
  obtain ⟨ha, _, hc⟩ := C4_reorder_point_formula (fun _ => 1.6449)
    defaultOptimizer 100 10 0.95 (by norm_num) (by norm_num)
  exact ⟨ha, hc (by norm_num)⟩

/-- The Scenario E3 input row: demand mean 1000, demand std 200, lead time
mean 2, lead time std 0.5, unit cost 20, ordering cost 50. -/
def e3Item : Item := ⟨1, 1000, 200, 2, 0.5, 20, 50⟩

/-- C5: the operation `optimize_inventory_levels` derives
`lead_time_demand = demand_mean * lead_time_mean` and
`lead_time_demand_std = sqrt(demand_mean² * lead_time_std² + lead_time_mean² * demand_std²)`
for every row; at the Scenario E3 row under the default policy these are
2000 and `sqrt 410000`, the latter strictly between 640.31 and 640.32. -/
theorem C5_lead_time_demand (ppf : ℝ → ℝ) (opt : InventoryOptimizer)
    (it : Item) :
    (optimizeItem ppf opt it).lead_time_demand =
      it.demand_mean * it.lead_time_mean ∧
    (optimizeItem ppf opt it).lead_time_demand_std =
      Real.sqrt (it.demand_mean ^ 2 * it.lead_time_std ^ 2 +
        it.lead_time_mean ^ 2 * it.demand_std ^ 2) ∧
    (optimizeItem ppf defaultOptimizer e3Item).lead_time_demand = 2000 ∧
    (optimizeItem ppf defaultOptimizer e3Item).lead_time_demand_std =
      Real.sqrt 410000 ∧
    (640.31 : ℝ) < Real.sqrt 410000 ∧ Real.sqrt 410000 < 640.32 := by
  refine ⟨rfl, rfl, ?_, ?_, ?_, ?_⟩
  · norm_num [optimizeItem, e3Item]
  · norm_num [optimizeItem, e3Item]
  · rw [Real.lt_sqrt (by norm_num)]; norm_num
  · rw [Real.sqrt_lt' (by norm_num)]; norm_num

/-- C7: With positive holding-cost rate and unit cost and non-negative
demand and ordering cost, the EOQ is non-decreasing in demand and in
ordering cost, and non-increasing in unit cost and in the holding-cost
rate. -/
theorem C7_eoq_monotonicity (scr sl hcr hcr' d d' oc oc' uc uc' : ℝ)
    (hhcr : 0 < hcr) (huc : 0 < uc) (hd : 0 ≤ d) (hoc : 0 ≤ oc) :
    (d ≤ d' →
      (calculate_economic_order_quantity ⟨hcr, scr, sl⟩ d oc uc).getD 0 ≤
      (calculate_economic_order_quantity ⟨hcr, scr, sl⟩ d' oc uc).getD 0) ∧
    (oc ≤ oc' →
      (calculate_economic_order_quantity ⟨hcr, scr, sl⟩ d oc uc).getD 0 ≤
      (calculate_economic_order_quantity ⟨hcr, scr, sl⟩ d oc' uc).getD 0) ∧
    (uc ≤ uc' →
      (calculate_economic_order_quantity ⟨hcr, scr, sl⟩ d oc uc').getD 0 ≤
      (calculate_economic_order_quantity ⟨hcr, scr, sl⟩ d oc uc).getD 0) ∧
    (hcr ≤ hcr' →
      (calculate_economic_order_quantity ⟨hcr', scr, sl⟩ d oc uc).getD 0 ≤
      (calculate_economic_order_quantity ⟨hcr, scr, sl⟩ d oc uc).getD 0) := by
  refine ⟨?_, ?_, ?_, ?_⟩
  · intro hdd
    rw [eoq_eq_some _ _ _ _ hd hoc hhcr huc,
      eoq_eq_some _ _ _ _ (hd.trans hdd) hoc hhcr huc]
    simp only [Option.getD_some]
    apply Real.sqrt_le_sqrt
    gcongr
  · intro hocc
    rw [eoq_eq_some _ _ _ _ hd hoc hhcr huc,
      eoq_eq_some _ _ _ _ hd (hoc.trans hocc) hhcr huc]
    simp only [Option.getD_some]
    apply Real.sqrt_le_sqrt
    gcongr
  · intro hucc
    rw [eoq_eq_some _ _ _ _ hd hoc hhcr huc,
      eoq_eq_some _ _ _ _ hd hoc hhcr (huc.trans_le hucc)]
    simp only [Option.getD_some]
    apply Real.sqrt_le_sqrt
    have hnum : 0 ≤ 2 * d * oc := by positivity
    have h1 : 0 < hcr * uc := mul_pos hhcr huc
    have h2 : hcr * uc ≤ hcr * uc' := by
      exact mul_le_mul_of_nonneg_left hucc hhcr.le
    exact div_le_div_of_nonneg_left hnum h1 h2
  · intro hcc
    rw [eoq_eq_some ⟨hcr', scr, sl⟩ d oc uc hd hoc (hhcr.trans_le hcc) huc,
      eoq_eq_some ⟨hcr, scr, sl⟩ d oc uc hd hoc hhcr huc]
    simp only [Option.getD_some]
    apply Real.sqrt_le_sqrt
    have hnum : 0 ≤ 2 * d * oc := by positivity
    have h1 : 0 < hcr * uc := mul_pos hhcr huc
    have h2 : hcr * uc ≤ hcr' * uc := by
      exact mul_le_mul_of_nonneg_right hcc huc.le
    exact div_le_div_of_nonneg_left hnum h1 h2

/-- Witness for C7 at concrete inputs. -/
theorem C7_eoq_monotonicity_witness :
    ((calculate_economic_order_quantity ⟨0.25, 0.5, 0.95⟩ 1000 50 20).getD 0 ≤
      (calculate_economic_order_quantity ⟨0.25, 0.5, 0.95⟩ 2000 50 20).getD 0) ∧
    ((calculate_economic_order_quantity ⟨0.25, 0.5, 0.95⟩ 1000 50 20).getD 0 ≤
      (calculate_economic_order_quantity ⟨0.25, 0.5, 0.95⟩ 1000 100 20).getD 0) ∧
    ((calculate_economic_order_quantity ⟨0.25, 0.5, 0.95⟩ 1000 50 40).getD 0 ≤
      (calculate_economic_order_quantity ⟨0.25, 0.5, 0.95⟩ 1000 50 20).getD 0) ∧
    ((calculate_economic_order_quantity ⟨0.5, 0.5, 0.95⟩ 1000 50 20).getD 0 ≤
      (calculate_economic_order_quantity ⟨0.25, 0.5, 0.95⟩ 1000 50 20).getD 0) := by
  obtain ⟨h1, h2, h3, h4⟩ := C7_eoq_monotonicity 0.5 0.95 0.25 0.5 1000 2000
    50 100 20 40 (by norm_num) (by norm_num) (by norm_num) (by norm_num)
  exact ⟨h1 (by norm_num), h2 (by norm_num), h3 (by norm_num),
    h4 (by norm_num)⟩

/-- C8: Given the documented properties of the standard-normal quantile
(it is non-negative from 1/2 up, and strictly monotone on (0,1)), the reorder
point is at least the lead-time demand whenever the service level is in
[1/2, 1) and the demand std is non-negative, and it is strictly increasing in
the service level for a fixed positive demand std. -/
theorem C8_reorder_point_bracketing (ppf : ℝ → ℝ)
    (hppf : ∀ p, 1 / 2 ≤ p → 0 ≤ ppf p)
    (hmono : StrictMonoOn ppf (Set.Ioo (0 : ℝ) 1))
    (opt : InventoryOptimizer) (L S : ℝ) :
    (∀ sl, 1 / 2 ≤ sl → sl < 1 → 0 ≤ S →
      L ≤ (calculate_reorder_point ppf opt L S (some sl)).getD 0) ∧
    (∀ p q, p ∈ Set.Ioo (0 : ℝ) 1 → q ∈ Set.Ioo (0 : ℝ) 1 → p < q → 0 < S →
      (calculate_reorder_point ppf opt L S (some p)).getD 0 <
      (calculate_reorder_point ppf opt L S (some q)).getD 0) := by
  constructor
  · intro sl hhalf h1 hS
    have h0 : 0 < sl := lt_of_lt_of_le (by norm_num) hhalf
    rw [reorder_point_eq_some ppf opt L S sl h0 h1]
    simp only [Option.getD_some]
    have := mul_nonneg (hppf sl hhalf) hS
    linarith
  · intro p q hp hq hpq hS
    rw [reorder_point_eq_some ppf opt L S p hp.1 hp.2,
      reorder_point_eq_some ppf opt L S q hq.1 hq.2]
    simp only [Option.getD_some]
    have := mul_lt_mul_of_pos_right (hmono hp hq hpq) hS
    linarith

/-- Witness for C8 with a concrete strictly monotone quantile stub. -/
theorem C8_reorder_point_bracketing_witness :
    ((100 : ℝ) ≤ (calculate_reorder_point (fun p => p - 1 / 2)
      defaultOptimizer 100 10 (some 0.75)).getD 0) ∧
    ((calculate_reorder_point (fun p => p - 1 / 2) defaultOptimizer 100 10
        (some 0.6)).getD 0 <
      (calculate_reorder_point (fun p => p - 1 / 2) defaultOptimizer 100 10
        (some 0.9)).getD 0) := by
  obtain ⟨h1, h2⟩ := C8_reorder_point_bracketing (fun p => p - 1 / 2)
    (fun p hp => by simp only [sub_nonneg]; exact hp)
    (fun a _ b _ hab => by simp only [sub_lt_sub_iff_right]; exact hab)
    defaultOptimizer 100 10
  exact ⟨h1 0.75 (by norm_num) (by norm_num) (by norm_num),
    h2 0.6 0.9 (by norm_num [Set.mem_Ioo]) (by norm_num [Set.mem_Ioo])
      (by norm_num) (by norm_num)⟩

/-- C6 (amended): for every row whose derived cost fields are finite —
positive demand, ordering cost, holding-cost rate and unit cost, service
level strictly inside (0,1) — the two identities `safety_stock =
reorder_point - lead_time_demand` and `total_annual_cost =
annual_holding_cost + annual_ordering_cost` hold to within 1e-9 (in the
embedding they hold exactly, because the source computes these fields from
the other output columns).  The unrestricted claim, over every output row,
is false: at a zero-demand row `annual_ordering_cost` and
`total_annual_cost` are NaN and the cost identity fails — see the
counterexample below. -/
theorem C6_identities (ppf : ℝ → ℝ) (opt : InventoryOptimizer) (it : Item)
    (hd : 0 < it.demand_mean) (hoc : 0 < it.ordering_cost)
    (hhcr : 0 < opt.holding_cost_rate) (huc : 0 < it.unit_cost)
    (hs0 : 0 < opt.service_level) (hs1 : opt.service_level < 1) :
    ((optimizeItem ppf opt it).safety_stock).isSome ∧
    ((optimizeItem ppf opt it).total_annual_cost).isSome ∧
    |((optimizeItem ppf opt it).safety_stock).getD 0 -
      (((optimizeItem ppf opt it).reorder_point).getD 0 -
        (optimizeItem ppf opt it).lead_time_demand)| < 1e-9 ∧
    |((optimizeItem ppf opt it).total_annual_cost).getD 0 -
      (((optimizeItem ppf opt it).annual_holding_cost).getD 0 +
        ((optimizeItem ppf opt it).annual_ordering_cost).getD 0)| < 1e-9 := by
  have harg : 0 < (2 * it.demand_mean * it.ordering_cost) /
      (opt.holding_cost_rate * it.unit_cost) :=
    div_pos (by positivity) (mul_pos hhcr huc)
  have he0 : Real.sqrt ((2 * it.demand_mean * it.ordering_cost) /
      (opt.holding_cost_rate * it.unit_cost)) ≠ 0 :=
    ne_of_gt (Real.sqrt_pos.2 harg)
  simp only [optimizeItem]
  rw [eoq_eq_some opt _ _ _ hd.le hoc.le hhcr huc,
    reorder_point_default_eq_some ppf opt _ _ hs0 hs1]
  simp [floatDiv, he0]
  norm_num

/-- Witness for C6 at a concrete valid row. -/
theorem C6_identities_witness :
    ((optimizeItem (fun _ => 0) defaultOptimizer witnessItem).safety_stock).isSome ∧
    ((optimizeItem (fun _ => 0) defaultOptimizer witnessItem).total_annual_cost).isSome ∧
    |((optimizeItem (fun _ => 0) defaultOptimizer witnessItem).safety_stock).getD 0 -
      (((optimizeItem (fun _ => 0) defaultOptimizer witnessItem).reorder_point).getD 0 -
        (optimizeItem (fun _ => 0) defaultOptimizer witnessItem).lead_time_demand)| < 1e-9 ∧
    |((optimizeItem (fun _ => 0) defaultOptimizer witnessItem).total_annual_cost).getD 0 -
      (((optimizeItem (fun _ => 0) defaultOptimizer witnessItem).annual_holding_cost).getD 0 +
        ((optimizeItem (fun _ => 0) defaultOptimizer witnessItem).annual_ordering_cost).getD 0)| < 1e-9 :=
  C6_identities (fun _ => 0) defaultOptimizer witnessItem
    (by norm_num [witnessItem]) (by norm_num [witnessItem])
    (by norm_num [defaultOptimizer]) (by norm_num [witnessItem])
    (by norm_num [defaultOptimizer]) (by norm_num [defaultOptimizer])

/-- C6 (counterexample): the identities do not hold for *every* output row.
At the zero-demand row under the default policy (with the documented
quantile value at 0.95) `annual_holding_cost` is a finite number, but
`annual_ordering_cost` and `total_annual_cost` are non-finite (the 0/0 NaN
of the unguarded division, propagated into the sum), so no finite values of
the three cost fields satisfy the cost identity within 1e-9 — in IEEE
arithmetic a comparison against NaN is false. -/
theorem C6_cost_identity_counterexample :
    ((optimizeItem (fun _ => 1.6449) defaultOptimizer
      zeroDemandItem).annual_holding_cost).isSome ∧
    (optimizeItem (fun _ => 1.6449) defaultOptimizer
      zeroDemandItem).annual_ordering_cost = none ∧
    (optimizeItem (fun _ => 1.6449) defaultOptimizer
      zeroDemandItem).total_annual_cost = none ∧
    ¬ ∃ t h a : ℝ,
      (optimizeItem (fun _ => 1.6449) defaultOptimizer
        zeroDemandItem).total_annual_cost = some t ∧
      (optimizeItem (fun _ => 1.6449) defaultOptimizer
        zeroDemandItem).annual_holding_cost = some h ∧
      (optimizeItem (fun _ => 1.6449) defaultOptimizer
        zeroDemandItem).annual_ordering_cost = some a ∧
      |t - (h + a)| < 1e-9 := by
  have htac : (optimizeItem (fun _ => 1.6449) defaultOptimizer
      zeroDemandItem).total_annual_cost = none := by
    norm_num [optimizeItem, zeroDemandItem, defaultOptimizer,
      calculate_economic_order_quantity, calculate_reorder_point,
      ppfChecked, floatDiv, floatSqrt, Real.sqrt_zero]
  refine ⟨?_, ?_, htac, ?_⟩
  · norm_num [optimizeItem, zeroDemandItem, defaultOptimizer,
      calculate_economic_order_quantity, calculate_reorder_point,
      ppfChecked, floatDiv, floatSqrt, Real.sqrt_zero]
  · norm_num [optimizeItem, zeroDemandItem, defaultOptimizer,
      calculate_economic_order_quantity, calculate_reorder_point,
      ppfChecked, floatDiv, floatSqrt, Real.sqrt_zero]
  · rintro ⟨t, h, a, ht, -, -, -⟩
    rw [htac] at ht
    exact Option.noConfusion ht

/-- C9: the operation `optimize_inventory_levels` returns exactly one result row per
input row, in input order, and the i-th result row is a function of the i-th
input row and the policy alone. -/
theorem C9_order_preservation (ppf : ℝ → ℝ) (opt : InventoryOptimizer)
    (data : List Item) :
    (optimize_inventory_levels ppf opt data).1.length = data.length ∧
    ∀ i : ℕ, (optimize_inventory_levels ppf opt data).1[i]? =
      (data[i]?).map (optimizeItem ppf opt) := by
  refine ⟨by simp [optimize_inventory_levels], fun i => ?_⟩
  simp [optimize_inventory_levels]

/-- C10: The operation has no side effects on explicit state: the
embedding of the method body returns the optimizer's three policy scalars
unchanged, and every output row carries the complete input row (all seven
original fields) over unchanged. -/
theorem C10_frame (ppf : ℝ → ℝ) (opt : InventoryOptimizer)
    (data : List Item) :
    (optimize_inventory_levels ppf opt data).2 = opt ∧
    (∀ it : Item, (optimizeItem ppf opt it).item = it) ∧
    ∀ i : ℕ, ((optimize_inventory_levels ppf opt data).1[i]?).map
      OptimizedItem.item = data[i]? := by
  refine ⟨rfl, fun it => rfl, fun i => ?_⟩
  simp only [optimize_inventory_levels, List.getElem?_map, Option.map_map]
  have hid : OptimizedItem.item ∘ optimizeItem ppf opt = id :=
    funext fun it => rfl
  rw [hid, Option.map_id, id]

/-- C1 (bug evidence): At a row with `demand_mean = 0` the source
computes `eoq = 0` and then `annual_ordering_cost = demand_mean / eoq *
ordering_cost = 0/0 * 50`, a non-finite float (NaN, modelled `none`) — not
the 0 that the claim (and the spec's zero-demand override) requires. -/
theorem C1_zero_demand_not_overridden (ppf : ℝ → ℝ) :
    (optimizeItem ppf defaultOptimizer zeroDemandItem).eoq = some 0 ∧
    (optimizeItem ppf defaultOptimizer zeroDemandItem).annual_ordering_cost
      = none := by
  have heoq : calculate_economic_order_quantity defaultOptimizer 0 50 20 =
      some 0 := by
    norm_num [calculate_economic_order_quantity, floatDiv, floatSqrt,
      defaultOptimizer, Real.sqrt_zero]
  constructor
  · exact heoq
  · show (calculate_economic_order_quantity defaultOptimizer 0 50 20).bind _
      = none
    rw [heoq]
    norm_num [floatDiv]

/-- C2 (bug evidence): The source signals no `DomainError` at the
mathematically invalid inputs: with `unit_cost = 0` or
`holding_cost_rate = 0` the EOQ division, and with `service_level` 0 or 1
the quantile, produce non-finite floats (`none`) that propagate to the
caller instead of an error. -/
theorem C2_no_domain_error_signalled (ppf : ℝ → ℝ) :
    calculate_economic_order_quantity ⟨0.25, 0.5, 0.95⟩ 1000 50 0 = none ∧
    calculate_economic_order_quantity ⟨0, 0.5, 0.95⟩ 1000 50 20 = none ∧
    calculate_reorder_point ppf defaultOptimizer 100 10 (some 0) = none ∧
    calculate_reorder_point ppf defaultOptimizer 100 10 (some 1) = none := by
  refine ⟨?_, ?_, ?_, ?_⟩ <;>
    norm_num [calculate_economic_order_quantity, calculate_reorder_point,
      floatDiv, ppfChecked, defaultOptimizer]
